import Mathlib

/-!
Verification of the event-sourcing core of the `otherworlds-rpg` backend.

The definitions below are a shallow embedding of the Rust source:

* `otherworlds-core`: `DomainError`, `EventMetadata`, `StoredEvent`,
  the `DeterministicRng` capability;
* `otherworlds-rules`: `determine_outcome`, the `Resolution` aggregate with
  its three domain mutations and `apply`, the command handlers and the
  `get_resolution_by_id` query handler;
* `otherworlds-event-store`: the per-aggregate event log with the
  optimistic-concurrency `append_events` protocol.

Modelling conventions:

* `uuid::Uuid` is modelled as a pair of natural numbers (its two 64-bit
  halves); `Uuid::new_v4()` draws and `clock.now()` reads are
  non-deterministic inputs of the Rust code and are passed as explicit
  parameters (`event_id`, `now`).
* Machine integers are modelled as `Int` (for `i32`/`i64` values) and `Nat`
  (for `u32` values), with an explicit `% 2 ^ 64` where the source performs
  wrapping arithmetic (`u64::wrapping_mul` in check-id synthesis).
* `serde_json::Value` payloads of stored events are observed by the embedded
  code only through deserialization into `RulesEventKind`, so they are
  modelled by that deserialization result (`Option RulesEventKind`, `none`
  standing for a malformed payload); serialization of a freshly produced
  event is the successful case `some kind`, matching the round-trip property
  the repository's own serialization tests establish.  The opaque
  `payload` of a `ResolvedEffect`, which the domain never inspects, is
  carried verbatim as a small JSON value type.
* The `&mut dyn DeterministicRng` capability is modelled by explicit state
  passing: a state type `σ` together with a step function `next_u32_range`.
-/

set_option autoImplicit false

/-- Model of `uuid::Uuid`: the two 64-bit halves of the identifier. -/
structure Uuid where
  hi : Nat
  lo : Nat
  deriving DecidableEq, Repr

/-- Model of `Uuid::from_u64_pair`, keeping each half inside 64 bits. -/
def Uuid.from_u64_pair (a b : Nat) : Uuid :=
  ⟨a % 2 ^ 64, b % 2 ^ 64⟩

/-- Minimal model of `serde_json::Value` for the opaque effect payloads the
domain code carries but never inspects (numbers are modelled as integers;
no claim computes with payload contents). -/
inductive Json where
  | null : Json
  | bool (b : Bool) : Json
  | num (n : Int) : Json
  | str (s : String) : Json
  | arr (xs : List Json) : Json
  | obj (fields : List (String × Json)) : Json

/-- Five-tier outcome of a d20 check (`CheckOutcome` in
`otherworlds-rules/src/domain/events.rs`). -/
inductive CheckOutcome where
  | criticalFailure : CheckOutcome
  | failure : CheckOutcome
  | partialSuccess : CheckOutcome
  | success : CheckOutcome
  | criticalSuccess : CheckOutcome
  deriving DecidableEq, Repr

/-- Model of `determine_outcome` from
`otherworlds-rules/src/domain/events.rs` (`natural_roll: u32`,
`total: i32`, `dc: i32`). -/
def determine_outcome (natural_roll : Nat) (total dc : Int) : CheckOutcome :=
  if natural_roll = 1 then .criticalFailure
  else if natural_roll = 20 then .criticalSuccess
  else if total ≥ dc + 10 then .criticalSuccess
  else if total ≥ dc then .success
  else if total ≥ dc - 5 then .partialSuccess
  else .failure

/-- C1: `determine_outcome` checks the natural-roll overrides (natural 1 →
CriticalFailure, natural 20 → CriticalSuccess) before the total-based tiers
(`total ≥ dc + 10` → CriticalSuccess, `total ≥ dc` → Success,
`total ≥ dc - 5` → PartialSuccess, otherwise Failure); in particular
`determine_outcome 15 25 15 = CriticalSuccess` and
`determine_outcome 1 25 15 = CriticalFailure`. -/
theorem determine_outcome_spec (natural_roll : Nat) (total dc : Int) :
    (natural_roll = 1 → determine_outcome natural_roll total dc = .criticalFailure) ∧
    (natural_roll ≠ 1 → natural_roll = 20 →
      determine_outcome natural_roll total dc = .criticalSuccess) ∧
    (natural_roll ≠ 1 → natural_roll ≠ 20 → total ≥ dc + 10 →
      determine_outcome natural_roll total dc = .criticalSuccess) ∧
    (natural_roll ≠ 1 → natural_roll ≠ 20 → ¬ total ≥ dc + 10 → total ≥ dc →
      determine_outcome natural_roll total dc = .success) ∧
    (natural_roll ≠ 1 → natural_roll ≠ 20 → ¬ total ≥ dc + 10 → ¬ total ≥ dc →
      total ≥ dc - 5 → determine_outcome natural_roll total dc = .partialSuccess) ∧
    (natural_roll ≠ 1 → natural_roll ≠ 20 → ¬ total ≥ dc + 10 → ¬ total ≥ dc →
      ¬ total ≥ dc - 5 → determine_outcome natural_roll total dc = .failure) ∧
    determine_outcome 15 25 15 = .criticalSuccess ∧
    determine_outcome 1 25 15 = .criticalFailure := by
  refine ⟨?_, ?_, ?_, ?_, ?_, ?_, by decide, by decide⟩ <;>
    · intros
      simp [determine_outcome, *]

/-- Witness for C1: evaluation at the spec's outcome-table rows. -/
theorem determine_outcome_spec_witness :
    determine_outcome 1 25 15 = .criticalFailure ∧
    determine_outcome 20 10 25 = .criticalSuccess ∧
    determine_outcome 15 25 15 = .criticalSuccess ∧
    determine_outcome 12 18 15 = .success ∧
    determine_outcome 8 10 15 = .partialSuccess ∧
    determine_outcome 3 4 15 = .failure :=
  ⟨(determine_outcome_spec 1 25 15).1 rfl,
   (determine_outcome_spec 20 10 25).2.1 (by decide) rfl,
   (determine_outcome_spec 15 25 15).2.2.1 (by decide) (by decide) (by decide),
   (determine_outcome_spec 12 18 15).2.2.2.1 (by decide) (by decide) (by decide) (by decide),
   (determine_outcome_spec 8 10 15).2.2.2.2.1 (by decide) (by decide) (by decide) (by decide)
     (by decide),
   (determine_outcome_spec 3 4 15).2.2.2.2.2.1 (by decide) (by decide) (by decide) (by decide)
     (by decide)⟩

/-- Payload of `rules.intent_declared` (`IntentDeclared` in
`otherworlds-rules/src/domain/events.rs`). -/
structure IntentDeclared where
  resolution_id : Uuid
  intent_id : Uuid
  action_type : String
  skill : Option String
  target_id : Option Uuid
  difficulty_class : Int
  modifier : Int

/-- Payload of `rules.check_resolved` (`CheckResolved` in
`otherworlds-rules/src/domain/events.rs`). -/
structure CheckResolved where
  resolution_id : Uuid
  check_id : Uuid
  natural_roll : Nat
  modifier : Int
  total : Int
  difficulty_class : Int
  outcome : CheckOutcome

/-- A single campaign-independent effect (`ResolvedEffect`). -/
structure ResolvedEffect where
  effect_type : String
  target_id : Option Uuid
  payload : Json

/-- Payload of `rules.effects_produced` (`EffectsProduced`). -/
structure EffectsProduced where
  resolution_id : Uuid
  effects : List ResolvedEffect

/-- Event payload variants for the Rules & Resolution context
(`RulesEventKind`). -/
inductive RulesEventKind where
  | intentDeclared (p : IntentDeclared) : RulesEventKind
  | checkResolved (p : CheckResolved) : RulesEventKind
  | effectsProduced (p : EffectsProduced) : RulesEventKind

/-- Metadata attached to every domain event (`EventMetadata` in
`otherworlds-core/src/event.rs`); timestamps are opaque values modelled
as integers. -/
structure EventMetadata where
  event_id : Uuid
  event_type : String
  aggregate_id : Uuid
  sequence_number : Int
  correlation_id : Uuid
  causation_id : Uuid
  occurred_at : Int

/-- Domain event envelope for the Rules & Resolution context
(`RulesEvent`). -/
structure RulesEvent where
  metadata : EventMetadata
  kind : RulesEventKind

/-- Model of `DomainEvent::event_type` for `RulesEvent`. -/
def RulesEvent.event_type (e : RulesEvent) : String :=
  match e.kind with
  | .intentDeclared _ => "rules.intent_declared"
  | .checkResolved _ => "rules.check_resolved"
  | .effectsProduced _ => "rules.effects_produced"

/-- Top-level domain error type (`DomainError` in
`otherworlds-core/src/error.rs`). -/
inductive DomainError where
  | aggregateNotFound (id : Uuid) : DomainError
  | concurrencyConflict (aggregate_id : Uuid) (expected actual : Int) : DomainError
  | validation (msg : String) : DomainError
  | infrastructure (msg : String) : DomainError
  deriving DecidableEq, Repr

/-- Resolution phase state machine (`ResolutionPhase`). -/
inductive ResolutionPhase where
  | created : ResolutionPhase
  | intentDeclared : ResolutionPhase
  | checkResolved : ResolutionPhase
  | effectsProduced : ResolutionPhase
  deriving DecidableEq, Repr

/-- Captured intent details within the aggregate (`DeclaredIntent`). -/
structure DeclaredIntent where
  intent_id : Uuid
  action_type : String
  skill : Option String
  target_id : Option Uuid
  difficulty_class : Int
  modifier : Int

/-- Captured check result within the aggregate (`CheckResult`). -/
structure CheckResult where
  check_id : Uuid
  natural_roll : Nat
  modifier : Int
  total : Int
  difficulty_class : Int
  outcome : CheckOutcome

/-- The aggregate root for a resolution (`Resolution` in
`otherworlds-rules/src/domain/aggregates.rs`). -/
structure Resolution where
  id : Uuid
  version : Int
  phase : ResolutionPhase
  intent : Option DeclaredIntent
  check_result : Option CheckResult
  effects : List ResolvedEffect
  uncommitted_events : List RulesEvent

/-- Model of `Resolution::new`. -/
def Resolution.new (id : Uuid) : Resolution :=
  ⟨id, 0, .created, none, none, [], []⟩

/-- Model of `Resolution::next_sequence_number`:
`version + uncommitted_events.len() + 1`. -/
def Resolution.next_sequence_number (r : Resolution) : Int :=
  r.version + (r.uncommitted_events.length : Int) + 1

/-- Model of `Resolution::declare_intent`.  The `&mut self` receiver is
modelled by returning the post-state next to the `Result`; the source's
`Uuid::new_v4()` event id and `clock.now()` timestamp are the explicit
`event_id` and `now` parameters. -/
def Resolution.declare_intent (r : Resolution) (intent_id : Uuid)
    (action_type : String) (skill : Option String) (target_id : Option Uuid)
    (difficulty_class modifier : Int) (correlation_id : Uuid) (now : Int)
    (event_id : Uuid) : Except DomainError Unit × Resolution :=
  if r.phase ≠ .created then
    (.error (.validation "resolution must be in Created phase"), r)
  else
    let event : RulesEvent :=
      ⟨⟨event_id, "rules.intent_declared", r.id, r.next_sequence_number,
        correlation_id, correlation_id, now⟩,
       .intentDeclared
         ⟨r.id, intent_id, action_type, skill, target_id, difficulty_class,
          modifier⟩⟩
    (.ok (), { r with uncommitted_events := r.uncommitted_events ++ [event] })

/-- State-passing model of the `DeterministicRng` capability: a state type
`σ` with the trait's `next_u32_range(min, max)` step. -/
structure RngOps (σ : Type) where
  next_u32_range : σ → Nat → Nat → Nat × σ

/-- Largest `u32` value, `u32::MAX`. -/
def u32max : Nat := 4294967295

/-- Model of `Resolution::resolve_check`.  Returns `none` exactly where the
source panics (`intent` unset despite `IntentDeclared` phase); the RNG is
threaded explicitly, and the `% 2 ^ 32` masks record that the trait returns
`u32` values. -/
def Resolution.resolve_check {σ : Type} (ops : RngOps σ) (r : Resolution)
    (correlation_id : Uuid) (now : Int) (event_id : Uuid) (rng : σ) :
    Option (Except DomainError Unit × Resolution × σ) :=
  if r.phase ≠ .intentDeclared then
    some (.error (.validation "resolution must be in IntentDeclared phase"), r, rng)
  else
    match r.intent with
    | none => none
    | some intent =>
      let roll := ops.next_u32_range rng 1 20
      let natural_roll : Nat := roll.1 % 2 ^ 32
      let total : Int := (natural_roll : Int) + intent.modifier
      let outcome := determine_outcome natural_roll total intent.difficulty_class
      let draw_hi := ops.next_u32_range roll.2 0 u32max
      let hi := draw_hi.1 % 2 ^ 32
      let draw_lo := ops.next_u32_range draw_hi.2 0 u32max
      let lo := draw_lo.1 % 2 ^ 32
      let bits := hi * 2 ^ 32 + lo
      let check_id := Uuid.from_u64_pair bits (bits * 0x517cc1b727220a95 % 2 ^ 64)
      let event : RulesEvent :=
        ⟨⟨event_id, "rules.check_resolved", r.id, r.next_sequence_number,
          correlation_id, correlation_id, now⟩,
         .checkResolved
           ⟨r.id, check_id, natural_roll, intent.modifier, total,
            intent.difficulty_class, outcome⟩⟩
      some (.ok (),
        { r with uncommitted_events := r.uncommitted_events ++ [event] },
        draw_lo.2)

/-- Model of `Resolution::produce_effects`. -/
def Resolution.produce_effects (r : Resolution) (effects : List ResolvedEffect)
    (correlation_id : Uuid) (now : Int) (event_id : Uuid) :
    Except DomainError Unit × Resolution :=
  if r.phase ≠ .checkResolved then
    (.error (.validation "resolution must be in CheckResolved phase"), r)
  else
    let event : RulesEvent :=
      ⟨⟨event_id, "rules.effects_produced", r.id, r.next_sequence_number,
        correlation_id, correlation_id, now⟩,
       .effectsProduced ⟨r.id, effects⟩⟩
    (.ok (), { r with uncommitted_events := r.uncommitted_events ++ [event] })

/-- Model of `AggregateRoot::apply` for `Resolution`: fold one event into
state, then increment the version. -/
def Resolution.apply (r : Resolution) (event : RulesEvent) : Resolution :=
  let r' :=
    match event.kind with
    | .intentDeclared p =>
      { r with
        phase := .intentDeclared
        intent := some ⟨p.intent_id, p.action_type, p.skill, p.target_id,
          p.difficulty_class, p.modifier⟩ }
    | .checkResolved p =>
      { r with
        phase := .checkResolved
        check_result := some ⟨p.check_id, p.natural_roll, p.modifier, p.total,
          p.difficulty_class, p.outcome⟩ }
    | .effectsProduced p =>
      { r with phase := .effectsProduced, effects := p.effects }
  { r' with version := r'.version + 1 }

/-- Model of `SequenceRng` from `otherworlds-test-support`: predetermined
`u32` draws consumed in order.  (The source indexes `u32_values[u32_index]`
and panics on exhaustion; the model reads a default `0` there — no claim
exhausts the sequence.) -/
structure SequenceRng where
  u32_values : List Nat
  u32_index : Nat
  deriving DecidableEq, Repr

/-- Model of `SequenceRng::new`. -/
def SequenceRng.new (values : List Nat) : SequenceRng :=
  ⟨values, 0⟩

/-- Model of `SequenceRng::next_u32_range`: return the next predetermined
value clamped into `[lo, hi]` and advance the index. -/
def SequenceRng.next_u32_range (rng : SequenceRng) (lo hi : Nat) :
    Nat × SequenceRng :=
  (min (max (rng.u32_values.getD rng.u32_index 0) lo) hi,
   ⟨rng.u32_values, rng.u32_index + 1⟩)

/-- The `DeterministicRng` capability of `SequenceRng`. -/
def seqRngOps : RngOps SequenceRng :=
  ⟨SequenceRng.next_u32_range⟩

/-- Applying an event increments the version by exactly one. -/
theorem Resolution.apply_version (r : Resolution) (e : RulesEvent) :
    (Resolution.apply r e).version = r.version + 1 := by
  cases h : e.kind <;> simp [Resolution.apply, h]

/-- Applying an event never touches the uncommitted-event buffer. -/
theorem Resolution.apply_uncommitted (r : Resolution) (e : RulesEvent) :
    (Resolution.apply r e).uncommitted_events = r.uncommitted_events := by
  cases h : e.kind <;> simp [Resolution.apply, h]

/-- Applying an event never changes the aggregate id. -/
theorem Resolution.apply_id (r : Resolution) (e : RulesEvent) :
    (Resolution.apply r e).id = r.id := by
  cases h : e.kind <;> simp [Resolution.apply, h]

/-- The phase an event installs, independent of the state it hits. -/
def RulesEventKind.target_phase : RulesEventKind → ResolutionPhase
  | .intentDeclared _ => .intentDeclared
  | .checkResolved _ => .checkResolved
  | .effectsProduced _ => .effectsProduced

/-- C3: each domain mutation invoked outside its single legal predecessor
phase returns the corresponding `Validation` error and returns the aggregate
(phase, intent, check result, effects, version and uncommitted buffer all
included) exactly as it was; `resolve_check` also returns the RNG state
untouched. -/
theorem mutation_phase_guard_spec {σ : Type} (ops : RngOps σ) (r : Resolution)
    (intent_id : Uuid) (action_type : String) (skill : Option String)
    (target_id : Option Uuid) (difficulty_class modifier : Int)
    (effects : List ResolvedEffect) (correlation_id : Uuid) (now : Int)
    (event_id : Uuid) (rng : σ) :
    (r.phase ≠ .created →
      Resolution.declare_intent r intent_id action_type skill target_id
        difficulty_class modifier correlation_id now event_id =
        (.error (.validation "resolution must be in Created phase"), r)) ∧
    (r.phase ≠ .intentDeclared →
      Resolution.resolve_check ops r correlation_id now event_id rng =
        some (.error (.validation "resolution must be in IntentDeclared phase"),
          r, rng)) ∧
    (r.phase ≠ .checkResolved →
      Resolution.produce_effects r effects correlation_id now event_id =
        (.error (.validation "resolution must be in CheckResolved phase"), r)) := by
  refine ⟨fun h => ?_, fun h => ?_, fun h => ?_⟩
  · simp [Resolution.declare_intent, h]
  · simp [Resolution.resolve_check, h]
  · simp [Resolution.produce_effects, h]

/-- Witness for C3: the guards fire on concrete aggregates in wrong phases. -/
theorem mutation_phase_guard_spec_witness :
    Resolution.declare_intent
        ⟨⟨1, 1⟩, 1, .intentDeclared, none, none, [], []⟩ ⟨2, 2⟩ "attack" none
        none 12 0 ⟨3, 3⟩ 0 ⟨4, 4⟩ =
      (.error (.validation "resolution must be in Created phase"),
       ⟨⟨1, 1⟩, 1, .intentDeclared, none, none, [], []⟩) ∧
    Resolution.resolve_check seqRngOps (Resolution.new ⟨1, 1⟩) ⟨3, 3⟩ 0 ⟨4, 4⟩
        (SequenceRng.new [10, 1, 1]) =
      some (.error (.validation "resolution must be in IntentDeclared phase"),
        Resolution.new ⟨1, 1⟩, SequenceRng.new [10, 1, 1]) ∧
    Resolution.produce_effects (Resolution.new ⟨1, 1⟩) [] ⟨3, 3⟩ 0 ⟨4, 4⟩ =
      (.error (.validation "resolution must be in CheckResolved phase"),
       Resolution.new ⟨1, 1⟩) :=
  ⟨(mutation_phase_guard_spec seqRngOps
      ⟨⟨1, 1⟩, 1, .intentDeclared, none, none, [], []⟩ ⟨2, 2⟩ "attack" none none
      12 0 [] ⟨3, 3⟩ 0 ⟨4, 4⟩ (SequenceRng.new [10, 1, 1])).1 (by decide),
   (mutation_phase_guard_spec seqRngOps (Resolution.new ⟨1, 1⟩) ⟨2, 2⟩ "attack"
      none none 12 0 [] ⟨3, 3⟩ 0 ⟨4, 4⟩ (SequenceRng.new [10, 1, 1])).2.1
      (by decide),
   (mutation_phase_guard_spec seqRngOps (Resolution.new ⟨1, 1⟩) ⟨2, 2⟩ "attack"
      none none 12 0 [] ⟨3, 3⟩ 0 ⟨4, 4⟩ (SequenceRng.new [10, 1, 1])).2.2
      (by decide)⟩

/-- C9: when `resolve_check` is invoked outside the `IntentDeclared` phase it
returns its `Validation` error without consuming any RNG draw — the RNG
state threaded out equals the one threaded in, so a rejected command never
shifts the deterministic draw sequence. -/
theorem resolve_check_reject_rng_frame_spec {σ : Type} (ops : RngOps σ)
    (r : Resolution) (correlation_id : Uuid) (now : Int) (event_id : Uuid)
    (rng : σ) (h : r.phase ≠ .intentDeclared) :
    Resolution.resolve_check ops r correlation_id now event_id rng =
      some (.error (.validation "resolution must be in IntentDeclared phase"),
        r, rng) := by
  simp [Resolution.resolve_check, h]

/-- Witness for C9: a `SequenceRng` survives a rejected `resolve_check` with
its index still at the start. -/
theorem resolve_check_reject_rng_frame_spec_witness :
    Resolution.resolve_check seqRngOps (Resolution.new ⟨7, 7⟩) ⟨8, 8⟩ 5 ⟨9, 9⟩
        (SequenceRng.new [15, 42, 99]) =
      some (.error (.validation "resolution must be in IntentDeclared phase"),
        Resolution.new ⟨7, 7⟩, SequenceRng.new [15, 42, 99]) :=
  resolve_check_reject_rng_frame_spec seqRngOps (Resolution.new ⟨7, 7⟩) ⟨8, 8⟩ 5
    ⟨9, 9⟩ (SequenceRng.new [15, 42, 99]) (by decide)

/-- C10: `Resolution.apply` is total and performs no phase validation —
on any current state it installs the phase determined by the event's kind,
overwrites the corresponding state field (leaving the other two untouched),
and increments the version by exactly one. -/
theorem apply_total_spec (r : Resolution) (e : RulesEvent) :
    (Resolution.apply r e).version = r.version + 1 ∧
    (Resolution.apply r e).phase = e.kind.target_phase ∧
    (∀ p, e.kind = .intentDeclared p →
      (Resolution.apply r e).intent =
        some ⟨p.intent_id, p.action_type, p.skill, p.target_id,
          p.difficulty_class, p.modifier⟩ ∧
      (Resolution.apply r e).check_result = r.check_result ∧
      (Resolution.apply r e).effects = r.effects) ∧
    (∀ p, e.kind = .checkResolved p →
      (Resolution.apply r e).check_result =
        some ⟨p.check_id, p.natural_roll, p.modifier, p.total,
          p.difficulty_class, p.outcome⟩ ∧
      (Resolution.apply r e).intent = r.intent ∧
      (Resolution.apply r e).effects = r.effects) ∧
    (∀ p, e.kind = .effectsProduced p →
      (Resolution.apply r e).effects = p.effects ∧
      (Resolution.apply r e).intent = r.intent ∧
      (Resolution.apply r e).check_result = r.check_result) := by
  refine ⟨Resolution.apply_version r e, ?_, ?_, ?_, ?_⟩
  · cases h : e.kind <;> simp [Resolution.apply, RulesEventKind.target_phase, h]
  · intro p hp
    simp [Resolution.apply, hp]
  · intro p hp
    simp [Resolution.apply, hp]
  · intro p hp
    simp [Resolution.apply, hp]

/-- Witness for C10: a `CheckResolved` event applied to a freshly created
aggregate — an out-of-order history — is folded in silently. -/
theorem apply_total_spec_witness :
    (Resolution.apply (Resolution.new ⟨1, 2⟩)
        ⟨⟨⟨5, 5⟩, "rules.check_resolved", ⟨1, 2⟩, 1, ⟨6, 6⟩, ⟨6, 6⟩, 0⟩,
         .checkResolved ⟨⟨1, 2⟩, ⟨7, 7⟩, 18, 3, 21, 15, .success⟩⟩).version =
      (Resolution.new ⟨1, 2⟩).version + 1 ∧
    (Resolution.apply (Resolution.new ⟨1, 2⟩)
        ⟨⟨⟨5, 5⟩, "rules.check_resolved", ⟨1, 2⟩, 1, ⟨6, 6⟩, ⟨6, 6⟩, 0⟩,
         .checkResolved ⟨⟨1, 2⟩, ⟨7, 7⟩, 18, 3, 21, 15, .success⟩⟩).check_result =
      some ⟨⟨7, 7⟩, 18, 3, 21, 15, .success⟩ :=
  ⟨(apply_total_spec (Resolution.new ⟨1, 2⟩)
      ⟨⟨⟨5, 5⟩, "rules.check_resolved", ⟨1, 2⟩, 1, ⟨6, 6⟩, ⟨6, 6⟩, 0⟩,
       .checkResolved ⟨⟨1, 2⟩, ⟨7, 7⟩, 18, 3, 21, 15, .success⟩⟩).1,
   ((apply_total_spec (Resolution.new ⟨1, 2⟩)
      ⟨⟨⟨5, 5⟩, "rules.check_resolved", ⟨1, 2⟩, 1, ⟨6, 6⟩, ⟨6, 6⟩, 0⟩,
       .checkResolved ⟨⟨1, 2⟩, ⟨7, 7⟩, 18, 3, 21, 15, .success⟩⟩).2.2.2.1
      ⟨⟨1, 2⟩, ⟨7, 7⟩, 18, 3, 21, 15, .success⟩ rfl).1⟩

/-- Stored representation of a domain event (`StoredEvent` in
`otherworlds-core/src/repository.rs`).  The `serde_json::Value` payload is
modelled by its deserialization result into `RulesEventKind` (`none` for a
payload on which deserialization fails). -/
structure StoredEvent where
  event_id : Uuid
  aggregate_id : Uuid
  event_type : String
  payload : Option RulesEventKind
  sequence_number : Int
  correlation_id : Uuid
  causation_id : Uuid
  occurred_at : Int

/-- Model of `to_stored_event` from
`otherworlds-rules/src/application/command_handlers.rs`: the serialized
payload of a freshly produced event deserializes back to its kind. -/
def to_stored_event (e : RulesEvent) : StoredEvent :=
  ⟨e.metadata.event_id, e.metadata.aggregate_id, e.event_type, some e.kind,
   e.metadata.sequence_number, e.metadata.correlation_id,
   e.metadata.causation_id, e.metadata.occurred_at⟩

/-- Rebuilds the in-memory event from a stored row and its deserialized
payload, as the loop body of `reconstitute` does. -/
def of_stored_event (stored : StoredEvent) (kind : RulesEventKind) : RulesEvent :=
  ⟨⟨stored.event_id, stored.event_type, stored.aggregate_id,
    stored.sequence_number, stored.correlation_id, stored.causation_id,
    stored.occurred_at⟩, kind⟩

/-- Loop of `reconstitute`: fold the stored events into an accumulator,
failing on the first payload that does not deserialize.  (The source message
interpolates the serde error; the payload abstraction keeps the stable
prefix only.) -/
def reconstituteFrom (r : Resolution) : List StoredEvent → Except DomainError Resolution
  | [] => .ok r
  | stored :: rest =>
    match stored.payload with
    | none => .error (.infrastructure "event deserialization failed")
    | some kind => reconstituteFrom (r.apply (of_stored_event stored kind)) rest

/-- Model of `reconstitute` from
`otherworlds-rules/src/application/command_handlers.rs`. -/
def reconstitute (resolution_id : Uuid) (existing_events : List StoredEvent) :
    Except DomainError Resolution :=
  reconstituteFrom (Resolution.new resolution_id) existing_events

/-- When every payload deserializes, the reconstitution loop succeeds and
adds exactly one version per event, never touching the buffer or the id. -/
theorem reconstituteFrom_ok (es : List StoredEvent) (r : Resolution)
    (h : ∀ e ∈ es, (e.payload).isSome = true) :
    ∃ r', reconstituteFrom r es = .ok r' ∧
      r'.version = r.version + (es.length : Int) ∧
      r'.uncommitted_events = r.uncommitted_events ∧
      r'.id = r.id := by
  induction es generalizing r with
  | nil => exact ⟨r, rfl, by simp, rfl, rfl⟩
  | cons e rest ih =>
    obtain ⟨k, hk⟩ := Option.isSome_iff_exists.mp (h e (List.mem_cons_self e rest))
    obtain ⟨r', hr', hv, hu, hid⟩ :=
      ih (Resolution.apply r (of_stored_event e k))
        (fun x hx => h x (List.mem_cons_of_mem e hx))
    refine ⟨r', ?_, ?_, ?_, ?_⟩
    · simp [reconstituteFrom, hk, hr']
    · rw [hv, Resolution.apply_version]
      simp only [List.length_cons]
      push_cast
      ring
    · rw [hu, Resolution.apply_uncommitted]
    · rw [hid, Resolution.apply_id]

/-- Whenever the reconstitution loop succeeds, it has not touched the
uncommitted buffer or the aggregate id. -/
theorem reconstituteFrom_frame (es : List StoredEvent) (r r' : Resolution)
    (h : reconstituteFrom r es = .ok r') :
    r'.uncommitted_events = r.uncommitted_events ∧ r'.id = r.id := by
  induction es generalizing r with
  | nil =>
    cases h
    exact ⟨rfl, rfl⟩
  | cons e rest ih =>
    unfold reconstituteFrom at h
    cases hk : e.payload with
    | none => rw [hk] at h; cases h
    | some k =>
      rw [hk] at h
      obtain ⟨hu, hid⟩ := ih (Resolution.apply r (of_stored_event e k)) h
      rw [hu, hid, Resolution.apply_uncommitted, Resolution.apply_id]
      exact ⟨rfl, rfl⟩

/-- Reconstitution produces an aggregate whose buffer is empty and whose id
is the requested one. -/
theorem reconstitute_ok_shape (resolution_id : Uuid) (es : List StoredEvent)
    (r : Resolution) (h : reconstitute resolution_id es = .ok r) :
    r.uncommitted_events = [] ∧ r.id = resolution_id :=
  reconstituteFrom_frame es (Resolution.new resolution_id) r h

/-- C4: for every stored-event list whose payloads all deserialize,
`reconstitute` succeeds with `version = len(E)`, and reconstitution is
deterministic — two reconstitutions from the same list agree on every
observable component (id, version, phase, intent, check result, effects). -/
theorem reconstitute_spec (resolution_id : Uuid) (E : List StoredEvent)
    (h : ∀ e ∈ E, (e.payload).isSome = true) :
    (∃ r, reconstitute resolution_id E = .ok r ∧ r.version = (E.length : Int)) ∧
    (∀ r1 r2, reconstitute resolution_id E = .ok r1 →
      reconstitute resolution_id E = .ok r2 →
      r1.id = r2.id ∧ r1.version = r2.version ∧ r1.phase = r2.phase ∧
      r1.intent = r2.intent ∧ r1.check_result = r2.check_result ∧
      r1.effects = r2.effects) := by
  constructor
  · obtain ⟨r, hr, hv, -, -⟩ := reconstituteFrom_ok E (Resolution.new resolution_id) h
    exact ⟨r, hr, by simpa [Resolution.new] using hv⟩
  · intro r1 r2 h1 h2
    rw [h1] at h2
    cases h2
    exact ⟨rfl, rfl, rfl, rfl, rfl, rfl⟩

/-- Concrete two-event history used to instantiate C4. -/
def c4_history : List StoredEvent :=
  [⟨⟨1, 1⟩, ⟨9, 9⟩, "rules.intent_declared",
    some (.intentDeclared ⟨⟨9, 9⟩, ⟨2, 2⟩, "skill_check", none, none, 15, 3⟩),
    1, ⟨3, 3⟩, ⟨3, 3⟩, 0⟩,
   ⟨⟨4, 4⟩, ⟨9, 9⟩, "rules.check_resolved",
    some (.checkResolved ⟨⟨9, 9⟩, ⟨5, 5⟩, 15, 3, 18, 15, .success⟩),
    2, ⟨6, 6⟩, ⟨6, 6⟩, 0⟩]

/-- The aggregate the history of C4 reconstitutes to. -/
def c4_result : Resolution :=
  ⟨⟨9, 9⟩, 2, .checkResolved,
   some ⟨⟨2, 2⟩, "skill_check", none, none, 15, 3⟩,
   some ⟨⟨5, 5⟩, 15, 3, 18, 15, .success⟩, [], []⟩

/-- Witness for C4: the two-event history reconstitutes deterministically. -/
theorem reconstitute_spec_witness :
    c4_result.id = c4_result.id ∧ c4_result.version = c4_result.version ∧
    c4_result.phase = c4_result.phase ∧ c4_result.intent = c4_result.intent ∧
    c4_result.check_result = c4_result.check_result ∧
    c4_result.effects = c4_result.effects :=
  (reconstitute_spec ⟨9, 9⟩ c4_history (by decide)).2 c4_result c4_result rfl rfl

/-- The durable event log (the `domain_events` table behind
`PgEventRepository`), modelled as its multiset of rows in insertion
order. -/
structure EventStore where
  rows : List StoredEvent

/-- Ordered comparison used to model `ORDER BY sequence_number ASC`. -/
def insert_by_seq (e : StoredEvent) : List StoredEvent → List StoredEvent
  | [] => [e]
  | x :: xs =>
    if e.sequence_number ≤ x.sequence_number then e :: x :: xs
    else x :: insert_by_seq e xs

/-- Insertion sort by sequence number (the store's read ordering). -/
def sort_by_seq : List StoredEvent → List StoredEvent
  | [] => []
  | x :: xs => insert_by_seq x (sort_by_seq xs)

/-- Model of `PgEventRepository::load_events`: all rows of the aggregate,
sorted by `sequence_number` ascending. -/
def EventStore.load_events (store : EventStore) (aggregate_id : Uuid) :
    List StoredEvent :=
  sort_by_seq (store.rows.filter (fun e => e.aggregate_id == aggregate_id))

/-- Model of the store's `SELECT MAX(sequence_number) ... WHERE aggregate_id`
query with `unwrap_or(0)` for the NULL (no rows) case. -/
def EventStore.max_sequence_number (store : EventStore) (aggregate_id : Uuid) :
    Int :=
  match (store.rows.filter (fun e => e.aggregate_id == aggregate_id)).map
      (fun e => e.sequence_number) with
  | [] => 0
  | s :: rest => rest.foldl max s

/-- Collision on the `domain_events` key constraints: the `event_id` primary
key or the `(aggregate_id, sequence_number)` uniqueness constraint. -/
def key_collision (a b : StoredEvent) : Bool :=
  a.event_id == b.event_id ||
    (a.aggregate_id == b.aggregate_id && a.sequence_number == b.sequence_number)

/-- Whether a batch has two rows colliding with each other. -/
def batch_collision : List StoredEvent → Bool
  | [] => false
  | e :: rest => rest.any (key_collision e) || batch_collision rest

/-- Whether inserting the batch would raise a unique violation against the
existing rows or within itself. -/
def unique_violation (existing batch : List StoredEvent) : Bool :=
  batch.any (fun e => existing.any (key_collision e)) || batch_collision batch

/-- Model of `PgEventRepository::append_events`.  An empty batch succeeds
without touching the store; otherwise the current max sequence number is
compared against `expected_version` inside the transaction, and a mismatch
aborts with `ConcurrencyConflict` carrying the observed version.  A unique
violation at insert time is re-interpreted as the same conflict by
re-querying the current max outside the aborted transaction
(`map_sqlx_error`); in this sequential model that re-query returns the same
maximum the proactive check saw. -/
def EventStore.append_events (store : EventStore) (aggregate_id : Uuid)
    (expected_version : Int) (events : List StoredEvent) :
    Except DomainError Unit × EventStore :=
  if events.isEmpty then (.ok (), store)
  else
    let actual_version := store.max_sequence_number aggregate_id
    if actual_version ≠ expected_version then
      (.error (.concurrencyConflict aggregate_id expected_version actual_version),
       store)
    else if unique_violation store.rows events then
      (.error (.concurrencyConflict aggregate_id expected_version
        (store.max_sequence_number aggregate_id)), store)
    else
      (.ok (), ⟨store.rows ++ events⟩)

/-- C2: a non-empty append whose `expected_version` differs from the
aggregate's current maximum stored sequence number (0 when no rows exist)
fails with `ConcurrencyConflict` carrying the aggregate id, the expected
version and the observed maximum, writes nothing, and leaves every
subsequent `load_events` result unchanged — with no assumption that the
batch's own sequence numbers collide with existing rows. -/
theorem append_events_conflict_spec (store : EventStore) (aggregate_id : Uuid)
    (expected_version : Int) (events : List StoredEvent)
    (hne : events ≠ [])
    (hv : store.max_sequence_number aggregate_id ≠ expected_version) :
    EventStore.append_events store aggregate_id expected_version events =
      (.error (.concurrencyConflict aggregate_id expected_version
        (store.max_sequence_number aggregate_id)), store) ∧
    ∀ aid, (EventStore.append_events store aggregate_id expected_version
        events).2.load_events aid = store.load_events aid := by
  have hemp : events.isEmpty = false := by
    cases events with
    | nil => exact absurd rfl hne
    | cons e es => rfl
  constructor
  · simp [EventStore.append_events, hemp, hv]
  · intro aid
    simp [EventStore.append_events, hemp, hv]

/-- Concrete store for the C2 witness: one aggregate with a single row. -/
def c2_store : EventStore :=
  ⟨[⟨⟨1, 1⟩, ⟨9, 9⟩, "rules.intent_declared",
     some (.intentDeclared ⟨⟨9, 9⟩, ⟨2, 2⟩, "attack", none, none, 12, 0⟩),
     1, ⟨3, 3⟩, ⟨3, 3⟩, 0⟩]⟩

/-- Concrete batch for the C2 witness, whose sequence number 5 does not
collide with the stored row. -/
def c2_batch : List StoredEvent :=
  [⟨⟨4, 4⟩, ⟨9, 9⟩, "rules.check_resolved",
    some (.checkResolved ⟨⟨9, 9⟩, ⟨5, 5⟩, 12, 0, 12, 12, .success⟩),
    5, ⟨6, 6⟩, ⟨6, 6⟩, 0⟩]

/-- Witness for C2: a stale `expected_version = 0` against a one-row
aggregate conflicts with `actual = 1` even though the batch's sequence
numbers do not collide. -/
theorem append_events_conflict_spec_witness :
    EventStore.append_events c2_store ⟨9, 9⟩ 0 c2_batch =
      (.error (.concurrencyConflict ⟨9, 9⟩ 0
        (c2_store.max_sequence_number ⟨9, 9⟩)), c2_store) ∧
    ∀ aid, (EventStore.append_events c2_store ⟨9, 9⟩ 0 c2_batch).2.load_events
        aid = c2_store.load_events aid :=
  append_events_conflict_spec c2_store ⟨9, 9⟩ 0 c2_batch
    (List.cons_ne_nil _ _) (by decide)

/-- C7: appending an empty batch succeeds for every aggregate id and every
expected version — matching or not — and leaves the store, hence every
subsequent `load_events` result, unchanged. -/
theorem append_events_empty_noop_spec (store : EventStore) (aggregate_id : Uuid)
    (expected_version : Int) :
    EventStore.append_events store aggregate_id expected_version [] =
      (.ok (), store) ∧
    ∀ aid, (EventStore.append_events store aggregate_id expected_version
        []).2.load_events aid = store.load_events aid :=
  ⟨rfl, fun _ => rfl⟩

/-- Command to declare a player intent (`DeclareIntent` in
`otherworlds-rules/src/domain/commands.rs`). -/
structure DeclareIntent where
  correlation_id : Uuid
  resolution_id : Uuid
  intent_id : Uuid
  action_type : String
  skill : Option String
  target_id : Option Uuid
  difficulty_class : Int
  modifier : Int

/-- Command to resolve a d20 check (`ResolveCheck`). -/
structure ResolveCheck where
  correlation_id : Uuid
  resolution_id : Uuid

/-- Specification for a single effect to produce (`EffectSpec`). -/
structure EffectSpec where
  effect_type : String
  target_id : Option Uuid
  payload : Json

/-- Model of `EffectSpec::into_resolved_effect`. -/
def EffectSpec.into_resolved_effect (s : EffectSpec) : ResolvedEffect :=
  ⟨s.effect_type, s.target_id, s.payload⟩

/-- Command to produce effects from a resolved check (`ProduceEffects`). -/
structure ProduceEffects where
  correlation_id : Uuid
  resolution_id : Uuid
  effects : List EffectSpec

/-- The arguments a command handler hands to
`repo.append_events(aggregate_id, expected_version, events)`. -/
structure AppendCall where
  aggregate_id : Uuid
  expected_version : Int
  events : List StoredEvent

/-- Model of `handle_declare_intent` up to its `append_events` call: the
repository interaction is represented by the loaded history going in and the
append arguments coming out.  As in the source, `resolution.version` is read
after the mutation has run. -/
def handle_declare_intent (existing_events : List StoredEvent)
    (command : DeclareIntent) (now : Int) (event_id : Uuid) :
    Except DomainError AppendCall :=
  match reconstitute command.resolution_id existing_events with
  | .error e => .error e
  | .ok resolution =>
    match Resolution.declare_intent resolution command.intent_id
        command.action_type command.skill command.target_id
        command.difficulty_class command.modifier command.correlation_id now
        event_id with
    | (.error e, _) => .error e
    | (.ok _, resolution') =>
      .ok ⟨command.resolution_id, resolution'.version,
        resolution'.uncommitted_events.map to_stored_event⟩

/-- Model of `handle_resolve_check` up to its `append_events` call, also
threading out the shared RNG's state; `none` marks the source's panic
path. -/
def handle_resolve_check {σ : Type} (ops : RngOps σ)
    (existing_events : List StoredEvent) (command : ResolveCheck) (now : Int)
    (event_id : Uuid) (rng : σ) :
    Option (Except DomainError AppendCall × σ) :=
  match reconstitute command.resolution_id existing_events with
  | .error e => some (.error e, rng)
  | .ok resolution =>
    match Resolution.resolve_check ops resolution command.correlation_id now
        event_id rng with
    | none => none
    | some (.error e, _, rng') => some (.error e, rng')
    | some (.ok _, resolution', rng') =>
      some (.ok ⟨command.resolution_id, resolution'.version,
        resolution'.uncommitted_events.map to_stored_event⟩, rng')

/-- Model of `handle_produce_effects` up to its `append_events` call. -/
def handle_produce_effects (existing_events : List StoredEvent)
    (command : ProduceEffects) (now : Int) (event_id : Uuid) :
    Except DomainError AppendCall :=
  match reconstitute command.resolution_id existing_events with
  | .error e => .error e
  | .ok resolution =>
    match Resolution.produce_effects resolution
        (command.effects.map EffectSpec.into_resolved_effect)
        command.correlation_id now event_id with
    | (.error e, _) => .error e
    | (.ok _, resolution') =>
      .ok ⟨command.resolution_id, resolution'.version,
        resolution'.uncommitted_events.map to_stored_event⟩

/-- C5: every Resolution command handler passes the reconstituted (load-time)
version as `expected_version` and hands `append_events` events whose
sequence numbers continue from it (`version_at_load + 1` for the single
event each mutation produces) — even though the call site reads
`resolution.version` after the mutation, because mutations only push to the
uncommitted buffer and never change the version. -/
theorem handler_version_at_load_spec :
    (∀ (E : List StoredEvent) (cmd : DeclareIntent) (now : Int)
       (event_id : Uuid) (r0 : Resolution) (call : AppendCall),
       reconstitute cmd.resolution_id E = .ok r0 →
       handle_declare_intent E cmd now event_id = .ok call →
       call.aggregate_id = cmd.resolution_id ∧
       call.expected_version = r0.version ∧
       call.events.map (fun s => s.sequence_number) = [r0.version + 1]) ∧
    (∀ (σ : Type) (ops : RngOps σ) (E : List StoredEvent) (cmd : ResolveCheck)
       (now : Int) (event_id : Uuid) (rng rng' : σ) (r0 : Resolution)
       (call : AppendCall),
       reconstitute cmd.resolution_id E = .ok r0 →
       handle_resolve_check ops E cmd now event_id rng = some (.ok call, rng') →
       call.aggregate_id = cmd.resolution_id ∧
       call.expected_version = r0.version ∧
       call.events.map (fun s => s.sequence_number) = [r0.version + 1]) ∧
    (∀ (E : List StoredEvent) (cmd : ProduceEffects) (now : Int)
       (event_id : Uuid) (r0 : Resolution) (call : AppendCall),
       reconstitute cmd.resolution_id E = .ok r0 →
       handle_produce_effects E cmd now event_id = .ok call →
       call.aggregate_id = cmd.resolution_id ∧
       call.expected_version = r0.version ∧
       call.events.map (fun s => s.sequence_number) = [r0.version + 1]) := by
  have hbuf : ∀ (id : Uuid) (E : List StoredEvent) (r : Resolution),
      reconstitute id E = .ok r → r.uncommitted_events = [] :=
    fun id E r h => (reconstitute_ok_shape id E r h).1
  refine ⟨?_, ?_, ?_⟩
  · intro E cmd now event_id r0 call h1 h2
    unfold handle_declare_intent at h2
    rw [h1] at h2
    by_cases hp : r0.phase = .created
    · simp only [Resolution.declare_intent, hp, ne_eq, not_true_eq_false,
        if_false, hbuf cmd.resolution_id E r0 h1, List.nil_append] at h2
      cases h2
      refine ⟨rfl, rfl, ?_⟩
      simp [to_stored_event, Resolution.next_sequence_number,
        hbuf cmd.resolution_id E r0 h1]
    · simp [Resolution.declare_intent, hp] at h2
  · intro σ ops E cmd now event_id rng rng' r0 call h1 h2
    unfold handle_resolve_check at h2
    rw [h1] at h2
    by_cases hp : r0.phase = .intentDeclared
    · cases hi : r0.intent with
      | none => simp [Resolution.resolve_check, hp, hi] at h2
      | some intent =>
        simp only [Resolution.resolve_check, hp, ne_eq, not_true_eq_false,
          if_false, hi, hbuf cmd.resolution_id E r0 h1, List.nil_append] at h2
        cases h2
        refine ⟨rfl, rfl, ?_⟩
        simp [to_stored_event, Resolution.next_sequence_number,
          hbuf cmd.resolution_id E r0 h1]
    · simp [Resolution.resolve_check, hp] at h2
  · intro E cmd now event_id r0 call h1 h2
    unfold handle_produce_effects at h2
    rw [h1] at h2
    by_cases hp : r0.phase = .checkResolved
    · simp only [Resolution.produce_effects, hp, ne_eq, not_true_eq_false,
        if_false, hbuf cmd.resolution_id E r0 h1, List.nil_append] at h2
      cases h2
      refine ⟨rfl, rfl, ?_⟩
      simp [to_stored_event, Resolution.next_sequence_number,
        hbuf cmd.resolution_id E r0 h1]
    · simp [Resolution.produce_effects, hp] at h2

/-- Concrete `DeclareIntent` command for the C5 witness. -/
def c5_declare_cmd : DeclareIntent :=
  ⟨⟨1, 1⟩, ⟨2, 2⟩, ⟨3, 3⟩, "skill_check", none, none, 15, 3⟩

/-- The append call the C5 declare-intent scenario produces. -/
def c5_declare_call : AppendCall :=
  match handle_declare_intent [] c5_declare_cmd 0 ⟨4, 4⟩ with
  | .ok c => c
  | .error _ => ⟨⟨0, 0⟩, 0, []⟩

/-- One-event history putting the aggregate in `IntentDeclared` phase. -/
def c5_history1 : List StoredEvent :=
  [⟨⟨1, 1⟩, ⟨9, 9⟩, "rules.intent_declared",
    some (.intentDeclared ⟨⟨9, 9⟩, ⟨2, 2⟩, "skill_check", none, none, 15, 3⟩),
    1, ⟨3, 3⟩, ⟨3, 3⟩, 0⟩]

/-- Concrete `ResolveCheck` command for the C5 witness. -/
def c5_resolve_cmd : ResolveCheck :=
  ⟨⟨7, 7⟩, ⟨9, 9⟩⟩

/-- The append call the C5 resolve-check scenario produces. -/
def c5_resolve_call : AppendCall :=
  match handle_resolve_check seqRngOps c5_history1 c5_resolve_cmd 0 ⟨8, 8⟩
      (SequenceRng.new [15, 42, 99]) with
  | some (.ok c, _) => c
  | _ => ⟨⟨0, 0⟩, 0, []⟩

/-- Two-event history putting the aggregate in `CheckResolved` phase. -/
def c5_history2 : List StoredEvent :=
  [⟨⟨1, 1⟩, ⟨9, 9⟩, "rules.intent_declared",
    some (.intentDeclared ⟨⟨9, 9⟩, ⟨2, 2⟩, "skill_check", none, none, 15, 3⟩),
    1, ⟨3, 3⟩, ⟨3, 3⟩, 0⟩,
   ⟨⟨4, 4⟩, ⟨9, 9⟩, "rules.check_resolved",
    some (.checkResolved ⟨⟨9, 9⟩, ⟨5, 5⟩, 15, 3, 18, 15, .success⟩),
    2, ⟨6, 6⟩, ⟨6, 6⟩, 0⟩]

/-- Concrete `ProduceEffects` command for the C5 witness. -/
def c5_produce_cmd : ProduceEffects :=
  ⟨⟨7, 7⟩, ⟨9, 9⟩, [⟨"damage", none, Json.obj [("amount", Json.num 8)]⟩]⟩

/-- The append call the C5 produce-effects scenario produces. -/
def c5_produce_call : AppendCall :=
  match handle_produce_effects c5_history2 c5_produce_cmd 0 ⟨8, 8⟩ with
  | .ok c => c
  | .error _ => ⟨⟨0, 0⟩, 0, []⟩

/-- Witness for C5: concrete runs of all three handlers carry the load-time
version and the successor sequence number. -/
theorem handler_version_at_load_spec_witness :
    (c5_declare_call.aggregate_id = (⟨2, 2⟩ : Uuid) ∧
     c5_declare_call.expected_version = 0 ∧
     c5_declare_call.events.map (fun s => s.sequence_number) = [1]) ∧
    (c5_resolve_call.aggregate_id = (⟨9, 9⟩ : Uuid) ∧
     c5_resolve_call.expected_version = 1 ∧
     c5_resolve_call.events.map (fun s => s.sequence_number) = [2]) ∧
    (c5_produce_call.aggregate_id = (⟨9, 9⟩ : Uuid) ∧
     c5_produce_call.expected_version = 2 ∧
     c5_produce_call.events.map (fun s => s.sequence_number) = [3]) :=
  ⟨handler_version_at_load_spec.1 [] c5_declare_cmd 0 ⟨4, 4⟩
    (Resolution.new ⟨2, 2⟩) c5_declare_call rfl rfl,
   handler_version_at_load_spec.2.1 SequenceRng seqRngOps c5_history1
    c5_resolve_cmd 0 ⟨8, 8⟩ (SequenceRng.new [15, 42, 99]) ⟨[15, 42, 99], 3⟩
    ⟨⟨9, 9⟩, 1, .intentDeclared,
     some ⟨⟨2, 2⟩, "skill_check", none, none, 15, 3⟩, none, [], []⟩
    c5_resolve_call rfl rfl,
   handler_version_at_load_spec.2.2 c5_history2 c5_produce_cmd 0 ⟨8, 8⟩
    ⟨⟨9, 9⟩, 2, .checkResolved,
     some ⟨⟨2, 2⟩, "skill_check", none, none, 15, 3⟩,
     some ⟨⟨5, 5⟩, 15, 3, 18, 15, .success⟩, [], []⟩
    c5_produce_call rfl rfl⟩

/-- String rendering of `CheckOutcome` (the `Display` implementation). -/
def CheckOutcome.display : CheckOutcome → String
  | .criticalFailure => "critical_failure"
  | .failure => "failure"
  | .partialSuccess => "partial_success"
  | .success => "success"
  | .criticalSuccess => "critical_success"

/-- Modelled from the spec: `Resolution::phase_name` is called by
`get_resolution_by_id` but its definition is not under `src/`; the
repository's query-handler tests pin the strings "intent_declared",
"check_resolved" and "effects_produced", and "created" follows the same
snake-case scheme.  No claim depends on these strings (the only claim
touching the query handler exercises its empty-history branch, which
returns before `phase_name` is called). -/
def Resolution.phase_name (r : Resolution) : String :=
  match r.phase with
  | .created => "created"
  | .intentDeclared => "intent_declared"
  | .checkResolved => "check_resolved"
  | .effectsProduced => "effects_produced"

/-- Read-only view of a declared intent (`IntentView`). -/
structure IntentView where
  intent_id : Uuid
  action_type : String
  skill : Option String
  target_id : Option Uuid
  difficulty_class : Int
  modifier : Int

/-- Read-only view of a check result (`CheckResultView`). -/
structure CheckResultView where
  check_id : Uuid
  natural_roll : Nat
  modifier : Int
  total : Int
  difficulty_class : Int
  outcome : String

/-- Read-only view of a single effect (`EffectView`). -/
structure EffectView where
  effect_type : String
  target_id : Option Uuid
  payload : Json

/-- Read-only view of a resolution aggregate (`ResolutionView`). -/
structure ResolutionView where
  resolution_id : Uuid
  phase : String
  intent : Option IntentView
  check_result : Option CheckResultView
  effects : List EffectView
  version : Int

/-- Model of `get_resolution_by_id` from
`otherworlds-rules/src/application/query_handlers.rs`, with the repository
interaction represented by the loaded history parameter. -/
def get_resolution_by_id (resolution_id : Uuid)
    (stored_events : List StoredEvent) : Except DomainError ResolutionView :=
  if stored_events.isEmpty then .error (.aggregateNotFound resolution_id)
  else
    match reconstitute resolution_id stored_events with
    | .error e => .error e
    | .ok resolution =>
      .ok ⟨resolution_id, resolution.phase_name,
        resolution.intent.map (fun i =>
          ⟨i.intent_id, i.action_type, i.skill, i.target_id,
           i.difficulty_class, i.modifier⟩),
        resolution.check_result.map (fun c =>
          ⟨c.check_id, c.natural_roll, c.modifier, c.total, c.difficulty_class,
           c.outcome.display⟩),
        resolution.effects.map (fun e =>
          ⟨e.effect_type, e.target_id, e.payload⟩),
        resolution.version⟩

/-- Concrete `ResolveCheck` command for the C6 counterexample. -/
def c6_cmd : ResolveCheck :=
  ⟨⟨3, 4⟩, ⟨1, 2⟩⟩

/-- Counterexample for C6: invoked against an id with zero stored events,
`handle_resolve_check` does not return `AggregateNotFound` carrying that id
— it returns the phase `Validation` error instead. -/
theorem mutation_not_found_counterexample :
    (handle_resolve_check seqRngOps [] c6_cmd 0 ⟨5, 6⟩
        (SequenceRng.new [10, 1, 1])).map (fun p => p.1) =
      some (.error (.validation "resolution must be in IntentDeclared phase")) ∧
    ¬ (handle_resolve_check seqRngOps [] c6_cmd 0 ⟨5, 6⟩
        (SequenceRng.new [10, 1, 1])).map (fun p => p.1) =
      some (.error (.aggregateNotFound c6_cmd.resolution_id)) := by
  constructor
  · rfl
  · intro h
    rw [show (handle_resolve_check seqRngOps [] c6_cmd 0 ⟨5, 6⟩
        (SequenceRng.new [10, 1, 1])).map (fun p => p.1) =
        some (.error (.validation "resolution must be in IntentDeclared phase"))
      from rfl] at h
    simp at h

/-- C6 (amended): on an id with zero stored events the query handler
`get_resolution_by_id` fails with `AggregateNotFound` carrying that id,
while the mutation handlers `handle_resolve_check` and
`handle_produce_effects` — which perform no empty-history check — fail with
the `Validation` error of their phase guard instead. -/
theorem empty_history_error_spec :
    (∀ id : Uuid, get_resolution_by_id id [] = .error (.aggregateNotFound id)) ∧
    (∀ (σ : Type) (ops : RngOps σ) (cmd : ResolveCheck) (now : Int)
       (event_id : Uuid) (rng : σ),
       handle_resolve_check ops [] cmd now event_id rng =
         some (.error (.validation "resolution must be in IntentDeclared phase"),
           rng)) ∧
    (∀ (cmd : ProduceEffects) (now : Int) (event_id : Uuid),
       handle_produce_effects [] cmd now event_id =
         .error (.validation "resolution must be in CheckResolved phase")) := by
  refine ⟨fun id => rfl, fun σ ops cmd now event_id rng => ?_, fun cmd now event_id => ?_⟩
  · simp [handle_resolve_check, reconstitute, reconstituteFrom,
      Resolution.resolve_check, Resolution.new]
  · simp [handle_produce_effects, reconstitute, reconstituteFrom,
      Resolution.produce_effects, Resolution.new]

/-- Applies every uncommitted event back into the instance and clears the
buffer — the persistence simulation the repository's lifecycle test performs
between commands (`apply` over a snapshot of the buffer, then
`clear_uncommitted_events`). -/
def Resolution.commit_uncommitted (r : Resolution) : Resolution :=
  let r' := r.uncommitted_events.foldl Resolution.apply r
  { r' with uncommitted_events := [] }

/-- The fresh aggregate the C8 lifecycle starts from. -/
def lifecycle_r0 : Resolution :=
  Resolution.new ⟨10, 20⟩

/-- Lifecycle step 1: declare an intent with difficulty class 15 and
modifier 3. -/
def lifecycle_step1 : Except DomainError Unit × Resolution :=
  Resolution.declare_intent lifecycle_r0 ⟨11, 21⟩ "skill_check"
    (some "athletics") none 15 3 ⟨12, 22⟩ 0 ⟨13, 23⟩

/-- State after committing step 1. -/
def lifecycle_r1 : Resolution :=
  Resolution.commit_uncommitted lifecycle_step1.2

/-- Lifecycle step 2: resolve the check with an RNG whose first draw
is 15. -/
def lifecycle_step2 :
    Option (Except DomainError Unit × Resolution × SequenceRng) :=
  Resolution.resolve_check seqRngOps lifecycle_r1 ⟨12, 22⟩ 0 ⟨14, 24⟩
    (SequenceRng.new [15, 42, 99])

/-- State after committing step 2. -/
def lifecycle_r2 : Resolution :=
  match lifecycle_step2 with
  | some (_, r, _) => Resolution.commit_uncommitted r
  | none => lifecycle_r1

/-- Lifecycle step 3: produce a single "damage" effect with payload
`{amount: 8}`. -/
def lifecycle_step3 : Except DomainError Unit × Resolution :=
  Resolution.produce_effects lifecycle_r2
    [⟨"damage", none, Json.obj [("amount", Json.num 8)]⟩] ⟨12, 22⟩ 0 ⟨15, 25⟩

/-- State after committing step 3. -/
def lifecycle_r3 : Resolution :=
  Resolution.commit_uncommitted lifecycle_step3.2

/-- C8: the full lifecycle on a fresh Resolution — `declare_intent` with
dc 15 and modifier 3 yields version 1 and phase IntentDeclared; then
`resolve_check` with an RNG whose first draw is 15 yields total 18,
outcome Success, version 2 and phase CheckResolved; then `produce_effects`
with a single "damage" effect of payload `{amount: 8}` yields version 3,
phase EffectsProduced and one effect. -/
theorem full_lifecycle_spec :
    lifecycle_step1.1 = .ok () ∧
    lifecycle_r1.version = 1 ∧
    lifecycle_r1.phase = .intentDeclared ∧
    lifecycle_step2.map (fun x => x.1) = some (.ok ()) ∧
    lifecycle_r2.version = 2 ∧
    lifecycle_r2.phase = .checkResolved ∧
    lifecycle_r2.check_result.map
      (fun c => (c.natural_roll, c.total, c.outcome)) =
      some (15, 18, .success) ∧
    lifecycle_step3.1 = .ok () ∧
    lifecycle_r3.version = 3 ∧
    lifecycle_r3.phase = .effectsProduced ∧
    lifecycle_r3.effects.length = 1 :=
  ⟨rfl, rfl, rfl, rfl, rfl, rfl, rfl, rfl, rfl, rfl, rfl⟩
